import Mathlib

/-!
Shallow embedding of `src/bot.py` (a Telegram current-affairs quiz bot) and
proofs about its quiz-session engine: quiz extraction (`extract_quiz_data`,
`fallback_quiz_extraction`), session start (`generate_quiz`), delivery and
retry (`send_quiz`), the per-question countdown (`update_timer`) and answer
scoring (`handle_poll_answer`).

External collaborators (the Telegram transport, the PrepAI HTTP call, NLTK
tokenization, `random.shuffle`, the wall clock) are modelled as parameters:
network outcomes and edit outcomes are booleans supplied by the environment,
`random.shuffle` is an arbitrary permutation-producing function, and the
candidate tuples produced by the NLTK sentence heuristics are quantified over.
-/

namespace QuizBot

/-- A quiz record as built by `extract_quiz_data` / `fallback_quiz_extraction`
(bot.py lines 82-86 and 173-177): the dict
`{'question': ..., 'answers': ..., 'correct': ...}`. -/
structure Quiz where
  question : String
  answers : List String
  correct : Nat
deriving DecidableEq, Repr

/-- One per-chat entry of `self.user_data[chat_id]` (bot.py line 207):
`{'score': ..., 'total': ...}`. -/
structure UserData where
  score : Nat
  total : Nat
deriving DecidableEq, Repr

/-! ## Quiz extraction (bot.py lines 66-93 and 95-180) -/

/-- One entry of the PrepAI API response list (bot.py lines 74-77).
`none` models a key missing from the dict (`q.get(...)` returning `None`);
`some ""` models an empty string. Both are falsy in Python. -/
structure ApiQuestion where
  question : Option String
  correct_answer : Option String
  options : List String
deriving DecidableEq, Repr

/-- The `(question, correct_answer, incorrect_answers)` triple that one
sentence of the NLTK fallback heuristics (bot.py lines 118-167) produced
for the guard at line 169. The heuristics themselves depend on external
NLTK tokenization, so the triples are left arbitrary. -/
structure FallbackCandidate where
  question : Option String
  correct_answer : Option String
  incorrect_answers : List String
deriving DecidableEq, Repr

/-- Bot.py lines 79-81 and 170-172: append the correct answer to the (at most
three) wrong ones, shuffle in place, and recover the correct index with
`answers.index(correct_answer)` (first occurrence). `random.shuffle` is
modelled by the permutation `shuffle` supplied by the environment. -/
def buildQuiz (shuffle : List String → List String)
    (question correct_answer : String) (pre : List String) : Quiz :=
  let answers := shuffle (pre ++ [correct_answer])
  { question := question, answers := answers,
    correct := answers.indexOf correct_answer }

/-- Bot.py lines 75-86: the guard `if question and correct_answer and
len(options) >= 4` (Python truthiness: present and non-empty) and the record
construction from `options[:3] + [correct_answer]`. -/
def mkApiQuiz (shuffle : List String → List String) (q : ApiQuestion) :
    Option Quiz :=
  match q.question, q.correct_answer with
  | some question, some correct_answer =>
    if question = "" ∨ correct_answer = "" ∨ q.options.length < 4 then none
    else some (buildQuiz shuffle question correct_answer (q.options.take 3))
  | _, _ => none

/-- Bot.py line 74: the loop `for q in prepai_questions[:10]` appending one
record per entry passing the guard. -/
def prepaiQuizzes (shuffle : List String → List String)
    (qs : List ApiQuestion) : List Quiz :=
  (qs.take 10).filterMap (mkApiQuiz shuffle)

/-- Bot.py lines 169-177: the guard `if question and correct_answer and
len(incorrect_answers) >= 3` and the record construction from
`incorrect_answers[:3] + [correct_answer]`. -/
def mkFallbackQuiz (shuffle : List String → List String)
    (c : FallbackCandidate) : Option Quiz :=
  match c.question, c.correct_answer with
  | some question, some correct_answer =>
    if question = "" ∨ correct_answer = "" ∨ c.incorrect_answers.length < 3
    then none
    else some (buildQuiz shuffle question correct_answer
      (c.incorrect_answers.take 3))
  | _, _ => none

/-- Bot.py lines 95-180, `fallback_quiz_extraction`: the loop
`for i, sentence in enumerate(sentences[:10])` (one candidate triple per
sentence) and the final `return quizzes[:10]`. -/
def fallback_quiz_extraction (shuffle : List String → List String)
    (cands : List FallbackCandidate) : List Quiz :=
  ((cands.take 10).filterMap (mkFallbackQuiz shuffle)).take 10

/-- Bot.py lines 66-93, `extract_quiz_data`: take the PrepAI path when
`call_prepai_api` returned a truthy (non-`None`, non-empty) list, otherwise
the NLTK fallback; return `quizzes[:10]` either way. -/
def extract_quiz_data (shuffle : List String → List String)
    (prepai : Option (List ApiQuestion)) (cands : List FallbackCandidate) :
    List Quiz :=
  (match prepai with
   | some qs =>
     if qs.isEmpty then fallback_quiz_extraction shuffle cands
     else prepaiQuizzes shuffle qs
   | none => fallback_quiz_extraction shuffle cands).take 10

/-! ## Session engine state (bot.py lines 30-35 and the Telegram context) -/

/-- A message sent with `context.bot.send_message` (identified by the
`message_id` Telegram assigns, used by `edit_message_text`). -/
structure Msg where
  chat_id : Nat
  message_id : Nat
  text : String
deriving DecidableEq, Repr

/-- A poll sent with `context.bot.send_poll` (bot.py lines 227-236), keeping
the fields the engine passes: chat, question, options and
`correct_option_id`. -/
structure SentPoll where
  poll_id : Nat
  chat_id : Nat
  question : String
  options : List String
  correct_option_id : Nat
deriving DecidableEq, Repr

/-- A pending `context.job_queue.run_once` callback: either a `send_quiz`
delivery (bot.py lines 256-262 and 266-270; the retry at 266 has no name) or
an `update_timer` tick (lines 244-253 and 296-301). The scheduled delay in
seconds and the `context=` payload are kept; `end_time` of a timer job is
environmental (wall clock) and is resolved when the job fires. -/
inductive Job
  | send_quiz_job (delay : Nat) (chat_id : Nat) (name : Option String)
  | timer_job (delay : Nat) (chat_id : Nat) (message_id : Nat) (name : String)
deriving DecidableEq, Repr

/-- A Python exception escaping a handler. -/
inductive PyError
  | typeError
  | keyError
deriving DecidableEq, Repr

/-- Whole-bot mutable state: the `QuizBot` instance fields (`self.quizzes`,
`self.current_quiz`, `self.user_data`), the shared `context.bot_data` poll
registry (line 237), the pending job queue, and the observable transport
history (polls and messages sent, with fresh-id counters). Note that
`quizzes` and `current_quiz` are single instance attributes shared by every
chat; only `user_data` is keyed by chat id. -/
structure BotState where
  quizzes : List Quiz
  current_quiz : Option Nat
  user_data : List (Nat × UserData)
  bot_data : List (Nat × Nat)
  jobs : List Job
  sent_polls : List SentPoll
  messages : List Msg
  next_poll_id : Nat
  next_message_id : Nat
deriving DecidableEq, Repr

/-- Dict lookup `d.get(k)` / `d[k]` on an association list. -/
def lookupAssoc {α : Type} : List (Nat × α) → Nat → Option α
  | [], _ => none
  | (k2, v) :: rest, k => if k2 = k then some v else lookupAssoc rest k

/-- Dict assignment `d[k] = v` on an association list. -/
def setAssoc {α : Type} (m : List (Nat × α)) (k : Nat) (v : α) :
    List (Nat × α) :=
  (k, v) :: m.filter (fun p => p.1 ≠ k)

/-- `self.question_timeout = 30` (bot.py line 35). -/
def question_timeout : Nat := 30

/-- Python `str()` of an optional integer (`None` prints as `"None"`),
used in the f-string job names. -/
def pyStr : Option Nat → String
  | none => "None"
  | some n => toString n

/-- Placeholder quiz for the guarded list index (never reached: the read at
bot.py line 225 is guarded by line 217). -/
def defaultQuiz : Quiz := { question := "", answers := [], correct := 0 }

/-- Bot.py lines 213-270, `send_quiz`. `chat_id` comes from `job_context`;
`ok` is the outcome of the `send_poll` network call (`false` means
`telegram.error.NetworkError` was raised). The exhaustion check at line 217
compares `self.current_quiz >= len(self.quizzes)`: when `current_quiz` is
`None` (initial value, or the finish branch ran) that comparison raises
`TypeError` in Python 3, modelled by `.error .typeError`. -/
def send_quiz (st : BotState) (chat_id : Nat) (ok : Bool) :
    Except PyError BotState :=
  match st.current_quiz with
  | none => .error .typeError
  | some cq =>
    if st.quizzes.length ≤ cq then
      match lookupAssoc st.user_data chat_id with
      | none => .error .keyError
      | some ud =>
        .ok { st with
          messages := st.messages ++
            [{ chat_id := chat_id,
               message_id := st.next_message_id,
               text := "Quiz finished! Your score: " ++ toString ud.score ++
                 "/" ++ toString ud.total }],
          next_message_id := st.next_message_id + 1,
          current_quiz := none }
    else
      let quiz := st.quizzes.getD cq defaultQuiz
      if ok then
        .ok { st with
          sent_polls := st.sent_polls ++
            [{ poll_id := st.next_poll_id,
               chat_id := chat_id, question := quiz.question,
               options := quiz.answers, correct_option_id := quiz.correct }],
          bot_data := setAssoc st.bot_data st.next_poll_id chat_id,
          messages := st.messages ++
            [{ chat_id := chat_id,
               message_id := st.next_message_id,
               text := "Time remaining: " ++ toString question_timeout ++
                 " seconds" }],
          jobs := st.jobs ++
            [Job.timer_job 1 chat_id st.next_message_id
              ("timer_" ++ toString chat_id ++ "_" ++ toString cq)] ++
            (if cq + 1 < st.quizzes.length then
              [Job.send_quiz_job 10 chat_id
                (some ("quiz_" ++ toString chat_id ++ "_" ++
                  toString (cq + 1)))]
             else []),
          current_quiz := some (cq + 1),
          next_poll_id := st.next_poll_id + 1,
          next_message_id := st.next_message_id + 1 }
      else
        .ok { st with
          messages := st.messages ++
            [{ chat_id := chat_id,
               message_id := st.next_message_id,
               text := "Network issue. Retrying in 10 seconds..." }],
          next_message_id := st.next_message_id + 1,
          jobs := st.jobs ++ [Job.send_quiz_job 10 chat_id none] }

/-- Bot.py lines 199-211, `generate_quiz`: refuse when no quizzes are
loaded; otherwise reset `self.current_quiz = 0`, install
`self.user_data[chat_id]`, and call `send_quiz` directly. Nothing is
cancelled and the previous job queue is kept as is. -/
def generate_quiz (st : BotState) (chat_id : Nat) (ok : Bool) :
    Except PyError BotState :=
  if st.quizzes.isEmpty then
    .ok { st with
      messages := st.messages ++
        [{ chat_id := chat_id,
           message_id := st.next_message_id,
           text :=
             "No quizzes available. Send current affairs text first." }],
      next_message_id := st.next_message_id + 1 }
  else
    send_quiz { st with
      current_quiz := some 0,
      user_data := setAssoc st.user_data chat_id
        { score := 0, total := st.quizzes.length } } chat_id ok

/-- One option of a finished-poll update, with its index and vote count
(as the code reads `opt.id` and `opt.voter_count` at line 312). -/
structure PollOption where
  id : Nat
  voter_count : Nat
deriving DecidableEq, Repr

/-- The `update.poll` payload delivered to the `PollHandler`. -/
structure PollUpdate where
  poll_id : Nat
  correct_option_id : Nat
  options : List PollOption
deriving DecidableEq, Repr

/-- Bot.py lines 305-314, `handle_poll_answer`: look the chat up in
`context.bot_data` (unknown poll ids: warn and return), then increment
`self.user_data[chat_id]['score']` whenever
`poll.correct_option_id in [opt.id for opt in poll.options if
opt.voter_count > 0]`. -/
def handle_poll_answer (st : BotState) (p : PollUpdate) :
    Except PyError BotState :=
  match lookupAssoc st.bot_data p.poll_id with
  | none => .ok st
  | some chat_id =>
    if p.correct_option_id ∈
        ((p.options.filter (fun o => 0 < o.voter_count)).map
          (fun o => o.id)) then
      match lookupAssoc st.user_data chat_id with
      | none => .error .keyError
      | some ud =>
        .ok { st with
          user_data := setAssoc st.user_data chat_id
            { ud with score := ud.score + 1 } }
    else .ok st

/-- `context.bot.edit_message_text`: replace the text of the message with
the given id. -/
def editMessage (msgs : List Msg) (message_id : Nat) (text : String) :
    List Msg :=
  msgs.map (fun m =>
    if m.message_id = message_id then { m with text := text } else m)

/-- Bot.py lines 272-303, `update_timer`. `remaining` is
`int((end_time - datetime.now()).total_seconds())`, supplied by the
environment clock; `edit_ok` is the outcome of `edit_message_text`
(`false` means `telegram.error.BadRequest`, which both branches swallow
with a debug log, so the function is total). On expiry it edits the message
and returns without rescheduling; otherwise it edits the countdown and
reschedules itself after 1 second (the job name reads the shared
`self.current_quiz` at line 300). No field of the session is touched. -/
def update_timer (st : BotState) (chat_id message_id : Nat)
    (remaining : Int) (edit_ok : Bool) : BotState :=
  if remaining ≤ 0 then
    { st with messages :=
        if edit_ok then editMessage st.messages message_id "Time\x27s up!"
        else st.messages }
  else
    if edit_ok then
      { st with
        messages := editMessage st.messages message_id
          ("Time remaining: " ++ toString remaining ++ " seconds"),
        jobs := st.jobs ++ [Job.timer_job 1 chat_id message_id
          ("timer_" ++ toString chat_id ++ "_" ++ pyStr st.current_quiz)] }
    else st

/-- An event the environment can feed to the bot: a `/generate` command
(with the network outcome of the `send_quiz` call it makes), the scheduler
firing a pending job (with the environmental network / clock / edit
outcomes), or a poll-state update from Telegram. -/
inductive Event
  | generate (chat_id : Nat) (ok : Bool)
  | fire_send_quiz (idx : Nat) (ok : Bool)
  | fire_timer (idx : Nat) (remaining : Int) (edit_ok : Bool)
  | poll_update (p : PollUpdate)
deriving Repr

/-- Dispatch one event. Firing a job removes it from the queue and runs its
callback; firing an index that does not hold a job of the named kind is a
no-op (the scheduler only fires jobs that exist). -/
def step (st : BotState) (e : Event) : Except PyError BotState :=
  match e with
  | .generate chat_id ok => generate_quiz st chat_id ok
  | .fire_send_quiz idx ok =>
    match st.jobs.get? idx with
    | some (Job.send_quiz_job _ chat_id _) =>
      send_quiz { st with jobs := st.jobs.eraseIdx idx } chat_id ok
    | _ => .ok st
  | .fire_timer idx remaining edit_ok =>
    match st.jobs.get? idx with
    | some (Job.timer_job _ chat_id message_id _) =>
      .ok (update_timer { st with jobs := st.jobs.eraseIdx idx }
        chat_id message_id remaining edit_ok)
    | _ => .ok st
  | .poll_update p => handle_poll_answer st p

/-- Run a list of events, stopping at the first escaping exception. -/
def run (st : BotState) (es : List Event) : Except PyError BotState :=
  match es with
  | [] => .ok st
  | e :: rest =>
    match step st e with
    | .ok st2 => run st2 rest
    | .error err => .error err

/-- `QuizBot.__init__` (bot.py lines 31-35) after `receive_data` stored the
extracted list in `self.quizzes`: `current_quiz = None`, empty
`user_data`, empty transport state. -/
def initState (quizzes : List Quiz) : BotState :=
  { quizzes := quizzes, current_quiz := none, user_data := [],
    bot_data := [], jobs := [], sent_polls := [], messages := [],
    next_poll_id := 0, next_message_id := 0 }

/-! ## Observation helpers -/

/-- The cursor of a run result (`none` when an exception escaped). -/
def resCursor (r : Except PyError BotState) : Option (Option Nat) :=
  r.toOption.map BotState.current_quiz

/-- The per-chat score entry of a run result. -/
def resEntry (r : Except PyError BotState) (chat : Nat) :
    Option (Option UserData) :=
  r.toOption.map (fun s => lookupAssoc s.user_data chat)

/-- The question texts delivered (as polls) to one chat, in order. -/
def questionsTo (r : Except PyError BotState) (chat : Nat) :
    Option (List String) :=
  r.toOption.map (fun s =>
    (s.sent_polls.filter (fun p => p.chat_id == chat)).map SentPoll.question)

/-- Whether a run result is a normal return. -/
def resOk (r : Except PyError BotState) : Bool :=
  match r with
  | .ok _ => true
  | .error _ => false

/-- Whether an event is a poll answer event. -/
def isAnswerEvent : Event → Bool
  | .poll_update _ => true
  | _ => false

/-! ## Concrete fixtures for counterexample runs -/

/-- Whether a job is a pending `send_quiz` delivery callback. -/
def isSendQuizJob : Job → Bool
  | .send_quiz_job .. => true
  | _ => false

/-- A three-question set (as `receive_data` would store in `self.quizzes`). -/
def exQ0 : Quiz :=
  { question := "Q0", answers := ["a0", "b0", "c0", "d0"], correct := 0 }

def exQ1 : Quiz :=
  { question := "Q1", answers := ["a1", "b1", "c1", "d1"], correct := 1 }

def exQ2 : Quiz :=
  { question := "Q2", answers := ["a2", "b2", "c2", "d2"], correct := 2 }

/-- A finished-poll update for poll 0 on which some respondent voted the
correct option (option 0, matching `exQ0.correct`). -/
def exPoll0 : PollUpdate :=
  { poll_id := 0, correct_option_id := 0,
    options := [{ id := 0, voter_count := 1 }, { id := 1, voter_count := 0 }] }

/-! ## Theorems -/

/-- The invariant of one produced quiz record relative to its intended
correct answer `ca`: four options, a correct index inside them, and the
option at the correct index is `ca` (so a respondent selecting
`qz.correct` — the index passed as `correct_option_id` at bot.py line
232 — selects the intended answer, and any other index is a different
option slot). -/
def RecordInvariant (qz : Quiz) (ca : String) : Prop :=
  qz.answers.length = 4 ∧ qz.correct < 4 ∧ qz.answers[qz.correct]? = some ca

theorem buildQuiz_invariant (shuffle : List String → List String)
    (hs : ∀ l, (shuffle l).Perm l) (question ca : String)
    (pre : List String) (hpre : pre.length = 3) :
    RecordInvariant (buildQuiz shuffle question ca pre) ca := by
  have hperm := hs (pre ++ [ca])
  have hmem : ca ∈ shuffle (pre ++ [ca]) := hperm.mem_iff.2 (by simp)
  have hlen : (shuffle (pre ++ [ca])).length = 4 := by
    rw [hperm.length_eq]
    simp [hpre]
  refine ⟨hlen, ?_, ?_⟩
  · have := List.indexOf_lt_length.2 hmem
    simp only [buildQuiz]
    omega
  · simpa [buildQuiz] using List.getElem?_indexOf hmem

theorem mkApiQuiz_invariant (shuffle : List String → List String)
    (hs : ∀ l, (shuffle l).Perm l) (q : ApiQuestion) (qz : Quiz)
    (h : mkApiQuiz shuffle q = some qz) :
    ∃ ca, q.correct_answer = some ca ∧ RecordInvariant qz ca := by
  unfold mkApiQuiz at h
  split at h
  case h_2 => exact absurd h (by simp)
  case h_1 question ca hq hca =>
    split_ifs at h with hguard
    push_neg at hguard
    obtain ⟨-, -, hopt⟩ := hguard
    injection h with h2
    subst h2
    refine ⟨ca, hca, buildQuiz_invariant shuffle hs question ca _ ?_⟩
    simp only [List.length_take]
    omega

theorem mkFallbackQuiz_invariant (shuffle : List String → List String)
    (hs : ∀ l, (shuffle l).Perm l) (c : FallbackCandidate) (qz : Quiz)
    (h : mkFallbackQuiz shuffle c = some qz) :
    ∃ ca, c.correct_answer = some ca ∧ RecordInvariant qz ca := by
  unfold mkFallbackQuiz at h
  split at h
  case h_2 => exact absurd h (by simp)
  case h_1 question ca hq hca =>
    split_ifs at h with hguard
    push_neg at hguard
    obtain ⟨-, -, hinc⟩ := hguard
    injection h with h2
    subst h2
    refine ⟨ca, hca, buildQuiz_invariant shuffle hs question ca _ ?_⟩
    simp only [List.length_take]
    omega

/-- C8: for every input, extraction produces at most 10 question records,
and every produced record has exactly 4 answers, a correct index `< 4`,
and the answer at the correct index equal to the intended correct answer
of the source entry, whatever permutation `random.shuffle` applied
(bot.py lines 66-93 and 169-180; the PrepAI response entries and the
NLTK sentence candidates are quantified over, covering every input
text). -/
theorem quizbot_C8 (shuffle : List String → List String)
    (hs : ∀ l, (shuffle l).Perm l)
    (prepai : Option (List ApiQuestion)) (cands : List FallbackCandidate) :
    (extract_quiz_data shuffle prepai cands).length ≤ 10 ∧
    ∀ qz ∈ extract_quiz_data shuffle prepai cands, ∃ ca,
      qz.answers.length = 4 ∧ qz.correct < 4 ∧
      qz.answers[qz.correct]? = some ca ∧
      ((∃ qs, prepai = some qs ∧ ∃ q ∈ qs, q.correct_answer = some ca) ∨
        ∃ c ∈ cands, c.correct_answer = some ca) := by
  constructor
  · simp only [extract_quiz_data, List.length_take]
    omega
  · intro qz hqz
    have hqz2 := List.mem_of_mem_take hqz
    have main : ∃ ca,
        RecordInvariant qz ca ∧
        ((∃ qs, prepai = some qs ∧ ∃ q ∈ qs, q.correct_answer = some ca) ∨
          ∃ c ∈ cands, c.correct_answer = some ca) := by
      revert hqz2
      cases prepai with
      | none =>
        intro hqz2
        obtain ⟨c, hc, hmk⟩ :=
          List.mem_filterMap.1 (List.mem_of_mem_take hqz2)
        obtain ⟨ca, hca, hinv⟩ :=
          mkFallbackQuiz_invariant shuffle hs c qz hmk
        exact ⟨ca, hinv, Or.inr ⟨c, List.mem_of_mem_take hc, hca⟩⟩
      | some qs =>
        simp only [extract_quiz_data]
        split_ifs with hemp
        · intro hqz2
          obtain ⟨c, hc, hmk⟩ :=
            List.mem_filterMap.1 (List.mem_of_mem_take hqz2)
          obtain ⟨ca, hca, hinv⟩ :=
            mkFallbackQuiz_invariant shuffle hs c qz hmk
          exact ⟨ca, hinv, Or.inr ⟨c, List.mem_of_mem_take hc, hca⟩⟩
        · intro hqz2
          obtain ⟨q, hq, hmk⟩ := List.mem_filterMap.1 hqz2
          obtain ⟨ca, hca, hinv⟩ :=
            mkApiQuiz_invariant shuffle hs q qz hmk
          exact ⟨ca, hinv, Or.inl ⟨qs, rfl, q, List.mem_of_mem_take hq, hca⟩⟩
    obtain ⟨ca, ⟨h1, h2, h3⟩, hsrc⟩ := main
    exact ⟨ca, h1, h2, h3, hsrc⟩

/-- Witness for C8: a concrete PrepAI response entry with four options and
the identity shuffle. -/
theorem quizbot_C8_witness :
    (extract_quiz_data id
      (some [{ question := some "who", correct_answer := some "X",
               options := ["A", "B", "C", "D"] }]) []).length ≤ 10 ∧
    ∀ qz ∈ extract_quiz_data id
      (some [{ question := some "who", correct_answer := some "X",
               options := ["A", "B", "C", "D"] }]) [], ∃ ca,
      qz.answers.length = 4 ∧ qz.correct < 4 ∧
      qz.answers[qz.correct]? = some ca ∧
      ((∃ qs, some ([{ question := some "who", correct_answer := some "X",
                       options := ["A", "B", "C", "D"] }] :
            List ApiQuestion) = some qs ∧
          ∃ q ∈ qs, q.correct_answer = some ca) ∨
        ∃ c ∈ ([] : List FallbackCandidate), c.correct_answer = some ca) :=
  quizbot_C8 id (fun l => List.Perm.refl l) _ _

/-- C1 fails on the code: `handle_poll_answer` adds 1 to the score on every
poll-state update whose correct option has a voter, and `bot_data` entries
are never removed nor compared against a pending question. Starting a
one-question session in chat 5 and delivering the same correct-voter poll
update twice (Telegram sends one `PollHandler` update per poll state
change) yields score 2 with total 1 — the question is scored twice. -/
theorem quizbot_C1 :
    resEntry (run (initState [exQ0])
      [.generate 5 true, .poll_update exPoll0, .poll_update exPoll0]) 5 =
      some (some { score := 2, total := 1 }) := rfl

/-- C2 counterexample: a run with no answer event at all (the trace below
contains none) still advances the cursor from `0` to `2` and delivers both
questions — the `/generate` call delivers question 0 and the fixed
10-second job delivers question 1, each advancing `current_quiz` at
delivery time (bot.py line 255), with the score untouched. So the cursor
does not advance "only when an answer is recorded". -/
theorem quizbot_C2_counterexample :
    ([Event.generate 7 true, Event.fire_send_quiz 1 true].filter
      isAnswerEvent) = [] ∧
    resCursor (run (initState [exQ0, exQ1])
      [.generate 7 true, .fire_send_quiz 1 true]) = some (some 2) ∧
    resEntry (run (initState [exQ0, exQ1])
      [.generate 7 true, .fire_send_quiz 1 true]) 7 =
      some (some { score := 0, total := 2 }) :=
  ⟨rfl, rfl, rfl⟩

/-- C3 fails on the code: `self.current_quiz` (and `self.quizzes`) is a
single instance attribute shared by every chat. Interleaving chat 2's
session with chat 1's (chat 1 starts, chat 2 starts, then each pending
10-second delivery job fires once) makes chat 2 receive questions
`[Q0, Q2]`, while the same chat-2 commands alone produce `[Q0, Q1, Q2]` —
chat 1's session moved chat 2's cursor. -/
theorem quizbot_C3 :
    questionsTo (run (initState [exQ0, exQ1, exQ2])
      [.generate 1 true, .generate 2 true,
       .fire_send_quiz 1 true, .fire_send_quiz 2 true]) 2 =
      some ["Q0", "Q2"] ∧
    questionsTo (run (initState [exQ0, exQ1, exQ2])
      [.generate 2 true, .fire_send_quiz 1 true, .fire_send_quiz 2 true]) 2 =
      some ["Q0", "Q1", "Q2"] :=
  ⟨rfl, rfl⟩

/-- C5 fails on the code: after the last question is delivered,
`send_quiz` schedules no further call (the guard at bot.py line 256 blocks
it), so a one-question session answered correctly reaches quiescence (no
pending delivery job) with no "Quiz finished!" message ever sent and the
`user_data` entry still in the store. Moreover even when the finish branch
itself runs (second conjunct), it sends the final-score message and sets
`current_quiz = None` but does not remove `user_data[chat_id]`. -/
theorem quizbot_C5 :
    (run (initState [exQ0])
      [.generate 3 true, .poll_update exPoll0]).toOption.map (fun s =>
        (s.messages.map Msg.text,
         s.jobs.filter isSendQuizJob,
         lookupAssoc s.user_data 3)) =
      some (["Time remaining: 30 seconds"], [],
        some { score := 1, total := 1 }) ∧
    (send_quiz { initState [exQ0] with
        current_quiz := some 1,
        user_data := [(3, { score := 1, total := 1 })] }
      3 true).toOption.map (fun s =>
        (lookupAssoc s.user_data 3, s.current_quiz, s.messages.map Msg.text)) =
      some (some { score := 1, total := 1 }, none,
        ["Quiz finished! Your score: 1/1"]) :=
  ⟨rfl, rfl⟩

/-- C6 fails on the code: `generate_quiz` cancels nothing. After chat 5
starts a session and immediately starts a new one, the first session's
pending 10-second delivery job (scheduled at bot.py lines 256-262) is
still in the queue (first conjunct), and letting it fire advances the new
session's cursor from 1 to 2 (second conjunct) — a stale callback mutates
the new session's state. -/
theorem quizbot_C6 :
    (run (initState [exQ0, exQ1, exQ2])
      [.generate 5 true, .generate 5 true]).toOption.map (fun s =>
        (s.jobs.get? 1, s.current_quiz)) =
      some (some (Job.send_quiz_job 10 5 (some "quiz_5_1")), some 1) ∧
    resCursor (run (initState [exQ0, exQ1, exQ2])
      [.generate 5 true, .generate 5 true, .fire_send_quiz 1 true]) =
      some (some 2) :=
  ⟨rfl, rfl⟩

/-- C7: starting with an empty question set only sends the
"No quizzes available" message (bot.py lines 200-203) — the state is
otherwise untouched: no `user_data` entry is created, no poll is sent, no
job is scheduled, and `send_quiz` is never reached. -/
theorem quizbot_C7 (st : BotState) (chat_id : Nat) (ok : Bool)
    (h : st.quizzes = []) :
    generate_quiz st chat_id ok = .ok { st with
      messages := st.messages ++
        [{ chat_id := chat_id,
           message_id := st.next_message_id,
           text :=
             "No quizzes available. Send current affairs text first." }],
      next_message_id := st.next_message_id + 1 } ∧
    (generate_quiz st chat_id ok).toOption.map BotState.user_data =
      some st.user_data ∧
    (generate_quiz st chat_id ok).toOption.map BotState.sent_polls =
      some st.sent_polls ∧
    (generate_quiz st chat_id ok).toOption.map BotState.jobs =
      some st.jobs ∧
    (generate_quiz st chat_id ok).toOption.map BotState.current_quiz =
      some st.current_quiz := by
  have hempty : st.quizzes.isEmpty := by simp [h]
  refine ⟨?_, ?_, ?_, ?_, ?_⟩ <;>
    simp [generate_quiz, hempty, Except.toOption]

/-- Witness for C7: an empty question set in the initial state; the store
stays empty and nothing is delivered. -/
theorem quizbot_C7_witness :
    (initState []).quizzes = [] ∧
    (generate_quiz (initState []) 1 true).toOption.map BotState.user_data =
      some [] ∧
    (generate_quiz (initState []) 1 true).toOption.map BotState.sent_polls =
      some [] :=
  ⟨rfl, (quizbot_C7 (initState []) 1 true rfl).2.1,
    (quizbot_C7 (initState []) 1 true rfl).2.2.1⟩

/-- C10: the finish branch stores `None` in `self.current_quiz` (second
conjunct), and a `send_quiz` call reaching a finished session — for
example a retry callback rescheduled before the finish and firing after
it — evaluates `self.current_quiz >= len(self.quizzes)` with
`current_quiz = None`, which in Python 3 raises `TypeError` instead of
taking a guarded no-op branch (first conjunct): `send_quiz` is not total
in the finished state. -/
theorem quizbot_C10 :
    (∀ st chat_id ok, st.current_quiz = none →
      send_quiz st chat_id ok = .error PyError.typeError) ∧
    (∀ st chat_id ok cq ud, st.current_quiz = some cq →
      st.quizzes.length ≤ cq →
      lookupAssoc st.user_data chat_id = some ud →
      resCursor (send_quiz st chat_id ok) = some none) := by
  constructor
  · intro st chat_id ok h
    simp [send_quiz, h]
  · intro st chat_id ok cq ud h1 h2 h3
    simp [send_quiz, h1, h2, h3, resCursor, Except.toOption]

/-- Witness for C10: the state left by the finish branch (cursor `None`)
makes the next delivery callback raise `TypeError`. -/
theorem quizbot_C10_witness :
    ({ initState [exQ0] with current_quiz := none } : BotState).current_quiz
      = none ∧
    send_quiz { initState [exQ0] with current_quiz := none } 9 true =
      .error PyError.typeError :=
  ⟨rfl, quizbot_C10.1 { initState [exQ0] with current_quiz := none } 9 true
    rfl⟩

/-- The user-visible notice sent on a transient delivery failure
(bot.py line 265). -/
def retryNotice : String := "Network issue. Retrying in 10 seconds..."

/-- `n` consecutive transient network failures: each scheduled retry
callback re-enters `send_quiz` with the same `job_context` and the
`send_poll` call fails again. -/
def failN (chat_id : Nat) : Nat → BotState → Except PyError BotState
  | 0, st => .ok st
  | n + 1, st => (send_quiz st chat_id false).bind (failN chat_id n)

theorem send_quiz_network_failure (st : BotState) (chat_id cq : Nat)
    (h1 : st.current_quiz = some cq) (h2 : cq < st.quizzes.length) :
    send_quiz st chat_id false = .ok { st with
      messages := st.messages ++
        [{ chat_id := chat_id,
           message_id := st.next_message_id,
           text := retryNotice }],
      next_message_id := st.next_message_id + 1,
      jobs := st.jobs ++ [Job.send_quiz_job 10 chat_id none] } := by
  simp [send_quiz, h1, Nat.not_le.2 h2, retryNotice]

theorem failN_spec (chat_id : Nat) (n : Nat) :
    ∀ st cq, st.current_quiz = some cq → cq < st.quizzes.length →
    ∃ stn, failN chat_id n st = .ok stn ∧
      stn.current_quiz = some cq ∧
      stn.quizzes = st.quizzes ∧
      stn.sent_polls = st.sent_polls ∧
      st.jobs ⊆ stn.jobs ∧
      st.messages.map Msg.text ⊆ stn.messages.map Msg.text ∧
      (0 < n → Job.send_quiz_job 10 chat_id none ∈ stn.jobs ∧
        retryNotice ∈ stn.messages.map Msg.text) := by
  induction n with
  | zero =>
    intro st cq h1 h2
    exact ⟨st, rfl, h1, rfl, rfl, List.Subset.refl _, List.Subset.refl _,
      fun h => absurd h (by omega)⟩
  | succ n ih =>
    intro st cq h1 h2
    rw [failN, send_quiz_network_failure st chat_id cq h1 h2]
    simp only [Except.bind]
    obtain ⟨stn, hrun, hcq, hqz, hsp, hjobs, hmsgs, hmem⟩ :=
      ih { st with
          messages := st.messages ++
            [{ chat_id := chat_id,
               message_id := st.next_message_id,
               text := retryNotice }],
          next_message_id := st.next_message_id + 1,
          jobs := st.jobs ++ [Job.send_quiz_job 10 chat_id none] }
        cq h1 h2
    refine ⟨stn, hrun, hcq, hqz, hsp, ?_, ?_, fun _ => ⟨?_, ?_⟩⟩
    · exact (List.subset_append_left _ _).trans hjobs
    · refine List.Subset.trans ?_ hmsgs
      simp
    · exact hjobs (by simp)
    · apply hmsgs
      simp

/-- C4: on a transient network failure of the `send_poll` call for the
question at the cursor, `send_quiz` leaves the cursor (and everything
delivered so far) unchanged, sends the visible "Network issue. Retrying
in 10 seconds..." notice, and schedules the same delivery again after a
fixed 10-second delay (bot.py lines 263-270); and for every `n`, `n`
consecutive such failures still leave the cursor in place with a retry
pending and the notice sent — the retry repeats without bound. -/
theorem quizbot_C4 (st : BotState) (chat_id cq : Nat)
    (h1 : st.current_quiz = some cq) (h2 : cq < st.quizzes.length) :
    send_quiz st chat_id false = .ok { st with
      messages := st.messages ++
        [{ chat_id := chat_id,
           message_id := st.next_message_id,
           text := retryNotice }],
      next_message_id := st.next_message_id + 1,
      jobs := st.jobs ++ [Job.send_quiz_job 10 chat_id none] } ∧
    ∀ n, ∃ stn, failN chat_id n st = .ok stn ∧
      stn.current_quiz = some cq ∧
      stn.sent_polls = st.sent_polls ∧
      (0 < n → Job.send_quiz_job 10 chat_id none ∈ stn.jobs ∧
        retryNotice ∈ stn.messages.map Msg.text) := by
  refine ⟨send_quiz_network_failure st chat_id cq h1 h2, fun n => ?_⟩
  obtain ⟨stn, hrun, hcq, hqz, hsp, hjobs, hmsgs, hmem⟩ :=
    failN_spec chat_id n st cq h1 h2
  exact ⟨stn, hrun, hcq, hsp, hmem⟩

/-- Witness for C4: a two-question session awaiting delivery of question 0
in chat 5; three consecutive network failures leave the cursor at 0 with a
retry scheduled and the notice sent. -/
theorem quizbot_C4_witness :
    ({ initState [exQ0, exQ1] with
        current_quiz := some 0,
        user_data := [(5, { score := 0, total := 2 })] } :
      BotState).current_quiz = some 0 ∧
    0 < ({ initState [exQ0, exQ1] with
        current_quiz := some 0,
        user_data := [(5, { score := 0, total := 2 })] } :
      BotState).quizzes.length ∧
    ∃ stn, failN 5 3 { initState [exQ0, exQ1] with
        current_quiz := some 0,
        user_data := [(5, { score := 0, total := 2 })] } = .ok stn ∧
      stn.current_quiz = some 0 ∧
      stn.sent_polls = [] ∧
      (0 < 3 → Job.send_quiz_job 10 5 none ∈ stn.jobs ∧
        retryNotice ∈ stn.messages.map Msg.text) :=
  ⟨rfl, by decide,
    (quizbot_C4 { initState [exQ0, exQ1] with
        current_quiz := some 0,
        user_data := [(5, { score := 0, total := 2 })] }
      5 0 rfl (by decide)).2 3⟩

/-- C9: one `update_timer` tick never touches the session state (cursor,
score store, polls, poll registry, question set); on expiry
(`remaining <= 0`) it edits the countdown message to the expiry notice and
does not reschedule, so ticking stops without advancing the session; while
time remains and the edit succeeds it edits the countdown text and
reschedules itself after exactly 1 second; a failing edit
(`telegram.error.BadRequest`, the already-modified-or-deleted case) is
swallowed in both branches — `update_timer` is total and firing a timer
job through the dispatcher never yields an escaping error. -/
theorem quizbot_C9 (st : BotState) (chat_id message_id : Nat)
    (remaining : Int) (edit_ok : Bool) :
    ((update_timer st chat_id message_id remaining edit_ok).current_quiz =
        st.current_quiz ∧
      (update_timer st chat_id message_id remaining edit_ok).user_data =
        st.user_data ∧
      (update_timer st chat_id message_id remaining edit_ok).sent_polls =
        st.sent_polls ∧
      (update_timer st chat_id message_id remaining edit_ok).bot_data =
        st.bot_data ∧
      (update_timer st chat_id message_id remaining edit_ok).quizzes =
        st.quizzes) ∧
    (remaining ≤ 0 →
      (update_timer st chat_id message_id remaining edit_ok).jobs =
        st.jobs ∧
      (update_timer st chat_id message_id remaining edit_ok).messages =
        (if edit_ok then editMessage st.messages message_id "Time\x27s up!"
         else st.messages)) ∧
    (0 < remaining → edit_ok = true →
      (update_timer st chat_id message_id remaining edit_ok).jobs =
        st.jobs ++ [Job.timer_job 1 chat_id message_id
          ("timer_" ++ toString chat_id ++ "_" ++
            pyStr st.current_quiz)] ∧
      (update_timer st chat_id message_id remaining edit_ok).messages =
        editMessage st.messages message_id
          ("Time remaining: " ++ toString remaining ++ " seconds")) ∧
    (0 < remaining → edit_ok = false →
      update_timer st chat_id message_id remaining edit_ok = st) ∧
    (∀ idx, resOk (step st (.fire_timer idx remaining edit_ok)) = true) := by
  refine ⟨?_, ?_, ?_, ?_, ?_⟩
  · unfold update_timer
    split_ifs <;> simp
  · intro hr
    rw [update_timer, if_pos hr]
    cases edit_ok <;> simp
  · intro hr he
    subst he
    rw [update_timer, if_neg (by omega)]
    simp
  · intro hr he
    subst he
    rw [update_timer, if_neg (by omega)]
    simp
  · intro idx
    rcases hj : st.jobs[idx]? with - | j
    · simp [step, List.get?_eq_getElem?, hj, resOk]
    · cases j <;> simp [step, List.get?_eq_getElem?, hj, resOk]

/-- Witness for C9: a state holding one pending timer job; the expired
tick (`remaining = 0`) leaves the job queue and session state alone, and
firing it through the dispatcher returns normally. -/
theorem quizbot_C9_witness :
    ((0 : Int) ≤ 0 →
      (update_timer { initState [exQ0] with
          jobs := [Job.timer_job 1 3 0 "timer_3_0"] } 3 0 0 true).jobs =
        [Job.timer_job 1 3 0 "timer_3_0"] ∧
      (update_timer { initState [exQ0] with
          jobs := [Job.timer_job 1 3 0 "timer_3_0"] } 3 0 0 true).messages =
        (if true then editMessage ([] : List Msg) 0 "Time\x27s up!"
         else [])) ∧
    resOk (step { initState [exQ0] with
        jobs := [Job.timer_job 1 3 0 "timer_3_0"] }
      (.fire_timer 0 0 true)) = true :=
  ⟨fun h => (quizbot_C9 { initState [exQ0] with
      jobs := [Job.timer_job 1 3 0 "timer_3_0"] } 3 0 0 true).2.1 h,
    (quizbot_C9 { initState [exQ0] with
      jobs := [Job.timer_job 1 3 0 "timer_3_0"] } 3 0 0 true).2.2.2.2 0⟩

/-- C2 as amended: answer events never change the cursor, the job queue or
the delivered polls (first conjunct — `handle_poll_answer` only touches
the score); the cursor advances by exactly 1 precisely when a question is
successfully delivered, the poll delivered is the one at the old cursor,
and each successful delivery schedules at most one follow-up delivery
job, the fixed 10-second inter-question timer, which is the only source
of the next delivery (second conjunct). Advancement is delivery-driven
(the 10-second timer acting as the advance signal), not answer-driven. -/
theorem quizbot_C2 :
    (∀ st p st2, handle_poll_answer st p = .ok st2 →
      st2.current_quiz = st.current_quiz ∧
      st2.sent_polls = st.sent_polls ∧
      st2.jobs = st.jobs) ∧
    (∀ st chat_id cq, st.current_quiz = some cq →
      cq < st.quizzes.length →
      resCursor (send_quiz st chat_id true) = some (some (cq + 1)) ∧
      (send_quiz st chat_id true).toOption.map BotState.sent_polls =
        some (st.sent_polls ++
          [{ poll_id := st.next_poll_id, chat_id := chat_id,
             question := (st.quizzes.getD cq defaultQuiz).question,
             options := (st.quizzes.getD cq defaultQuiz).answers,
             correct_option_id :=
               (st.quizzes.getD cq defaultQuiz).correct }]) ∧
      (send_quiz st chat_id true).toOption.map BotState.jobs =
        some (st.jobs ++
          [Job.timer_job 1 chat_id st.next_message_id
            ("timer_" ++ toString chat_id ++ "_" ++ toString cq)] ++
          (if cq + 1 < st.quizzes.length then
            [Job.send_quiz_job 10 chat_id
              (some ("quiz_" ++ toString chat_id ++ "_" ++
                toString (cq + 1)))]
           else []))) := by
  constructor
  · intro st p st2 h
    unfold handle_poll_answer at h
    split at h
    · injection h with h2
      subst h2
      exact ⟨rfl, rfl, rfl⟩
    · split_ifs at h
      · split at h
        · exact absurd h (by simp)
        · injection h with h2
          subst h2
          exact ⟨rfl, rfl, rfl⟩
      · injection h with h2
        subst h2
        exact ⟨rfl, rfl, rfl⟩
  · intro st chat_id cq h1 h2
    refine ⟨?_, ?_, ?_⟩ <;>
      simp [send_quiz, h1, Nat.not_le.2 h2, resCursor, Except.toOption]

/-- A session state scoring a pending poll: poll 0 is registered to
chat 5, whose entry is at score 0 of 1. -/
def exScoring : BotState :=
  { initState [exQ0] with
    bot_data := [(0, 5)],
    user_data := [(5, { score := 0, total := 1 })] }

/-- `exScoring` after `handle_poll_answer` banked the correct answer. -/
def exScored : BotState :=
  { initState [exQ0] with
    bot_data := [(0, 5)],
    user_data := [(5, { score := 1, total := 1 })] }

/-- A session state awaiting delivery of question 0 of 2 to chat 5. -/
def exAwait : BotState :=
  { initState [exQ0, exQ1] with
    current_quiz := some 0,
    user_data := [(5, { score := 0, total := 2 })] }

/-- Witness for the amended C2: a concrete scoring event leaves cursor,
polls and jobs alone, and a concrete successful delivery advances the
cursor from 0 to 1, delivering poll 0 and scheduling one 10-second
follow-up delivery job. -/
theorem quizbot_C2_witness :
    (exScored.current_quiz = exScoring.current_quiz ∧
      exScored.sent_polls = exScoring.sent_polls ∧
      exScored.jobs = exScoring.jobs) ∧
    (resCursor (send_quiz exAwait 5 true) = some (some (0 + 1)) ∧
      (send_quiz exAwait 5 true).toOption.map BotState.sent_polls =
        some (exAwait.sent_polls ++
          [{ poll_id := exAwait.next_poll_id, chat_id := 5,
             question := (exAwait.quizzes.getD 0 defaultQuiz).question,
             options := (exAwait.quizzes.getD 0 defaultQuiz).answers,
             correct_option_id :=
               (exAwait.quizzes.getD 0 defaultQuiz).correct }]) ∧
      (send_quiz exAwait 5 true).toOption.map BotState.jobs =
        some (exAwait.jobs ++
          [Job.timer_job 1 5 exAwait.next_message_id
            ("timer_" ++ toString 5 ++ "_" ++ toString 0)] ++
          (if 0 + 1 < exAwait.quizzes.length then
            [Job.send_quiz_job 10 5
              (some ("quiz_" ++ toString 5 ++ "_" ++ toString (0 + 1)))]
           else []))) :=
  ⟨quizbot_C2.1 exScoring exPoll0 exScored rfl,
    quizbot_C2.2 exAwait 5 0 rfl (by decide)⟩

end QuizBot
